import Mathlib

/-!
Shallow embedding of the BGAPI BLE backend protocol engine
(`bluetooth_adapter/backends/bgapi/bgapi.py`).

The driver keeps a bank of per-packet-kind handlers that mutate shared
connection/bonding/discovery state; public operations send a command and then
call `_process_packets_until`, which pops packets from the receiver queue,
runs every popped packet through its handler, and returns once a packet of an
accepted kind has been processed (raising on timeout).

Modelling conventions:
* Python exceptions become an explicit `Outcome` sum
  (`ok` / `err` / `blocked` / `crashed`); `blocked` models a wait whose input
  stream of queue-pop results was exhausted without a match (an indefinite
  block in the real program), `crashed` models an unhandled Python exception
  raised inside a packet handler (the `IndexError` from `_services[-1]` /
  `characteristics[-1]` indexing).
* Each iteration of the wait loop is driven by a `WaitStep`: the clock reading
  (`elapsed`, seconds since the wait began, as read by `time.time()` at the
  top of the iteration) and the result of the bounded queue pop
  (`none` = `Queue.Empty`).
* The external collaborators absent from the reviewed source (the `bglib`
  packet codec, the `gatt` UUID classification tables, the `constants`
  enums) appear as abstract data carried inside the decoded packet: the
  UUID class of a find-information event, the parsed name/field map of a
  scan response.  The handler logic itself is translated from the source.
* Numeric result codes, reasons and RSSI readings are Python ints,
  modelled as `Int`.
-/

namespace Bgapi

/-- Exception values raised by the backend.  `bgapi` corresponds to
`BGAPIError` and carries the message prefix of the raise site, so distinct
failure conditions that share the Python exception class stay
distinguishable. -/
inductive Err where
  | bgapi (msg : String)
  | notConnected (msg : String)
  | notImplemented (msg : String)
  | assertionFailed
deriving Repr, DecidableEq

/-- Exception class passed to `_process_packets_until` as `exception_type`;
the timeout raise instantiates it with the timeout message. -/
inductive ExcClass where
  | bgapiError
  | notConnectedError
deriving Repr, DecidableEq

/-- Instantiation `exception_type(msg)` of the exception class. -/
def ExcClass.toErr : ExcClass → String → Err
  | .bgapiError, m => .bgapi m
  | .notConnectedError, m => .notConnected m

/-- Descriptor classification from the external `gatt.DescriptorType`
enumeration; only the client characteristic configuration case is
distinguished by the backend (in `subscribe`). -/
inductive DescriptorType where
  | clientCharacteristicConfiguration
  | otherDescriptor (n : Nat)
deriving Repr, DecidableEq

/-- Outcome of classifying the UUID of a find-information-found event
against the external `gatt` lookup tables, in the order the handler tests
them: a 128-bit custom UUID, membership in `UUID_STRING_TO_ATTRIBUTE_TYPE`
(with the attribute type found), membership in
`UUID_STRING_TO_CHARACTERISTIC_TYPE`, membership in
`UUID_STRING_TO_DESCRIPTOR_TYPE`, or unrecognized. -/
inductive UuidClass where
  | custom128
  | attCharacteristic
  | attPrimaryService
  | attSecondaryService
  | attOther (n : Nat)
  | charType (n : Nat)
  | descType (d : DescriptorType)
  | unrecognized
deriving Repr, DecidableEq

/-- A discovered `gatt.Descriptor`. -/
structure GattDescriptor where
  handle : Nat
  uuid : Nat
  descriptor_type : DescriptorType
deriving Repr, DecidableEq

/-- A discovered `gatt.Characteristic`. -/
structure GattCharacteristic where
  handle : Nat
  uuid : Nat
  custom : Bool := false
  characteristic_type : Option Nat := none
  descriptors : List GattDescriptor := []
deriving Repr, DecidableEq

/-- A discovered `gatt.Service`. -/
structure GattService where
  handle : Nat
  uuid : Nat
  secondary : Bool := false
  characteristics : List GattCharacteristic := []
deriving Repr, DecidableEq

/-- A parsed advertisement field map (`data_dict` built by
`_scan_rsp_data`): field-type key paired with an abstract parsed value. -/
abbrev FieldMap := List (Nat × Nat)

/-- One entry of `_devices_discovered`. -/
structure DeviceInfo where
  name : String := ""
  rssi : Int := 0
  packet_data : List (Option Nat × FieldMap) := []
deriving Repr, DecidableEq

/-- Ghost record of the commands sent over the serial port
(`self._lib.send_command`), so that theorems can talk about what was
written to the dongle. -/
inductive Cmd where
  | setBondableMode (bondable : Nat)
  | encryptStart (handle : Nat) (bonding : Nat)
  | connectDirect
  | disconnectCmd (handle : Nat)
  | getRssiCmd (handle : Nat)
  | attributeWriteCmd (atthandle : Nat) (value : List Nat)
deriving Repr, DecidableEq

/-- The mutable state of a `BGAPIBackend` instance that the packet handlers
and the facade operations touch. -/
structure DriverState where
  connected : Bool := false
  encrypted : Bool := false
  bonded : Bool := false
  bond_expected : Bool := false
  bonding_fail : Bool := false
  procedure_completed : Bool := false
  attribute_value_received : Bool := false
  attribute_value : List Nat := []
  response_return : Int := 0
  event_return : Int := 0
  connection_handle : Nat := 0
  services : List GattService := []
  devices_discovered : List (List Nat × DeviceInfo) := []
  stored_bonds : List Nat := []
  num_bonds : Nat := 0
  callbacks : List (Nat × Nat) := []
  sent : List Cmd := []
deriving Repr, DecidableEq

/-- Record a command write on the ghost trace. -/
def DriverState.send (s : DriverState) (c : Cmd) : DriverState :=
  { s with sent := s.sent ++ [c] }

/-- Lookup in an association list (a Python dict keyed in insertion
order). -/
def assocGet {κ α : Type} [DecidableEq κ] : List (κ × α) → κ → Option α
  | [], _ => none
  | (k', v) :: rest, k => if k' = k then some v else assocGet rest k

/-- Insert-or-update in an association list. -/
def assocSet {κ α : Type} [DecidableEq κ] : List (κ × α) → κ → α → List (κ × α)
  | [], k, v => [(k, v)]
  | (k', v') :: rest, k, v =>
    if k' = k then (k, v) :: rest else (k', v') :: assocSet rest k v

/-- Apply a fallible update to the last element of a list; `none` when the
list is empty or the update fails, modelling the `IndexError` of Python
`l[-1]` on an empty list. -/
def modifyLastM {α : Type} (g : α → Option α) : List α → Option (List α)
  | [] => none
  | [a] => (g a).map (fun a' => [a'])
  | a :: b :: rest => (modifyLastM g (b :: rest)).map (fun l => a :: l)

/-- The packet kinds (`BGLib.PacketType`) that the backend registers
specific handlers for; every other kind routes to the generic no-op
handler and is collapsed into `genericKind`. -/
inductive PacketType where
  | rspGapConnectDirect
  | evtConnectionStatus
  | evtConnectionDisconnected
  | rspConnectionDisconnect
  | rspConnectionGetRssi
  | rspSmSetBondableMode
  | rspSmEncryptStart
  | evtSmBondingFail
  | evtSmBondStatus
  | rspSmGetBonds
  | evtGapScanResponse
  | evtFindInformationFound
  | evtProcedureCompleted
  | rspAttclientAttributeWrite
  | rspAttclientReadByHandle
  | evtAttclientAttributeValue
  | genericKind
deriving Repr, DecidableEq

/-- A decoded packet: kind plus the argument fields its handler reads.
The scan-response payload carries the outputs of the parsing steps that
depend on external enumerations: the classified advertisement packet kind
(`none` when `args.packet_type` matches no `ScanResponsePacketType`
member) and the `(name, data_dict)` pair produced by `_scan_rsp_data`.
The find-information payload likewise carries the classification of its
UUID against the external `gatt` tables. -/
inductive Packet where
  | rspGapConnectDirect (connection_handle : Nat) (result : Int)
  | evtConnectionStatus (connection : Nat) (flags : Nat)
  | evtConnectionDisconnected (connection : Nat) (reason : Int)
  | rspConnectionDisconnect (connection : Nat) (result : Int)
  | rspConnectionGetRssi (connection : Nat) (rssi : Int)
  | rspSmSetBondableMode
  | rspSmEncryptStart (handle : Nat) (result : Int)
  | evtSmBondingFail (result : Int)
  | evtSmBondStatus (bond : Nat)
  | rspSmGetBonds (bonds : Nat)
  | evtGapScanResponse (rssi : Int) (packetType : Option Nat) (sender : List Nat)
      (name : String) (dataDict : FieldMap)
  | evtFindInformationFound (chrhandle : Nat) (uuid : Nat) (uclass : UuidClass)
  | evtProcedureCompleted (connection : Nat) (result : Int) (chrhandle : Nat)
  | rspAttclientAttributeWrite (connection : Nat) (result : Int)
  | rspAttclientReadByHandle (connection : Nat) (result : Int)
  | evtAttclientAttributeValue (connection : Nat) (atthandle : Nat) (ty : Nat)
      (value : List Nat)
  | generic
deriving Repr, DecidableEq

/-- Kind of a decoded packet. -/
def Packet.kind : Packet → PacketType
  | .rspGapConnectDirect _ _ => .rspGapConnectDirect
  | .evtConnectionStatus _ _ => .evtConnectionStatus
  | .evtConnectionDisconnected _ _ => .evtConnectionDisconnected
  | .rspConnectionDisconnect _ _ => .rspConnectionDisconnect
  | .rspConnectionGetRssi _ _ => .rspConnectionGetRssi
  | .rspSmSetBondableMode => .rspSmSetBondableMode
  | .rspSmEncryptStart _ _ => .rspSmEncryptStart
  | .evtSmBondingFail _ => .evtSmBondingFail
  | .evtSmBondStatus _ => .evtSmBondStatus
  | .rspSmGetBonds _ => .rspSmGetBonds
  | .evtGapScanResponse _ _ _ _ _ => .evtGapScanResponse
  | .evtFindInformationFound _ _ _ => .evtFindInformationFound
  | .evtProcedureCompleted _ _ _ => .evtProcedureCompleted
  | .rspAttclientAttributeWrite _ _ => .rspAttclientAttributeWrite
  | .rspAttclientReadByHandle _ _ => .rspAttclientReadByHandle
  | .evtAttclientAttributeValue _ _ _ _ => .evtAttclientAttributeValue
  | .generic => .genericKind

/-- Modelled from the spec: the numeric values of
`constants.ConnectionStatusFlag.connected` and `.encrypted` live in the
external `constants` module; the spec fixes only the bit test
`(flags & flag) == flag`. -/
def connectedFlag : Nat := 1

/-- Modelled from the spec: numeric value of the encrypted status flag. -/
def encryptedFlag : Nat := 2

/-- Handler `_ble_evt_connection_status`: stores the connection handle and
sets `connected` / `encrypted` for each status flag present. -/
def ble_evt_connection_status (s : DriverState) (conn flags : Nat) : DriverState :=
  let s1 := { s with connection_handle := conn }
  let s2 := if flags &&& connectedFlag = connectedFlag
            then { s1 with connected := true } else s1
  if flags &&& encryptedFlag = encryptedFlag
  then { s2 with encrypted := true } else s2

/-- Handler `_ble_evt_gap_scan_response`: inserts a fresh device record on
first sight of an address, fills the name once (first non-empty name
wins), and replaces the stored field map for an advertisement packet kind
exactly when the new map has strictly more parsed fields.  The address key
is the reversed sender byte list (the code renders it as a colon-joined
hex string, an injective encoding). -/
def ble_evt_gap_scan_response (s : DriverState) (rssi : Int)
    (packetType : Option Nat) (sender : List Nat) (name : String)
    (dataDict : FieldMap) : DriverState :=
  let addr := sender.reverse
  let dev0 := match assocGet s.devices_discovered addr with
    | some d => d
    | none => { name := name, rssi := rssi, packet_data := [] }
  let dev1 := if dev0.name = "" then { dev0 with name := name } else dev0
  let dev2 := match assocGet dev1.packet_data packetType with
    | none => { dev1 with packet_data := assocSet dev1.packet_data packetType dataDict }
    | some stored =>
      if stored.length < dataDict.length
      then { dev1 with packet_data := assocSet dev1.packet_data packetType dataDict }
      else dev1
  { s with devices_discovered := assocSet s.devices_discovered addr dev2 }

/-- Handler `_ble_evt_attclient_find_information_found`, branching on the
classification of the event UUID.  `none` models the `IndexError` raised
by `self._services[-1]` / `.characteristics[-1]` when the indexed list is
empty. -/
def ble_evt_attclient_find_information_found (s : DriverState)
    (chrhandle uuid : Nat) (uc : UuidClass) : Option DriverState :=
  match uc with
  | .custom128 =>
    (modifyLastM (fun sv =>
        (modifyLastM (fun c =>
            some { c with custom := true, uuid := uuid, handle := chrhandle })
          sv.characteristics).map
          (fun cs => { sv with characteristics := cs }))
      s.services).map (fun svs => { s with services := svs })
  | .attCharacteristic =>
    (modifyLastM (fun sv =>
        some { sv with characteristics :=
                 sv.characteristics ++ [{ handle := chrhandle, uuid := uuid }] })
      s.services).map (fun svs => { s with services := svs })
  | .attPrimaryService =>
    some { s with services := s.services ++ [{ handle := chrhandle, uuid := uuid }] }
  | .attSecondaryService =>
    some { s with services :=
             s.services ++ [{ handle := chrhandle, uuid := uuid, secondary := true }] }
  | .attOther _ => some s
  | .charType n =>
    (modifyLastM (fun sv =>
        (modifyLastM (fun c => some { c with characteristic_type := some n })
          sv.characteristics).map
          (fun cs => { sv with characteristics := cs }))
      s.services).map (fun svs => { s with services := svs })
  | .descType d =>
    (modifyLastM (fun sv =>
        (modifyLastM (fun c =>
            some { c with descriptors :=
                     c.descriptors ++ [{ handle := chrhandle, uuid := uuid,
                                         descriptor_type := d }] })
          sv.characteristics).map
          (fun cs => { sv with characteristics := cs }))
      s.services).map (fun svs => { s with services := svs })
  | .unrecognized => some s

/-- The packet-handler bank (`self._packet_handlers`): every packet kind
routes to its registered handler; kinds without a specific handler route
to the no-op generic handler.  `none` models an unhandled Python
exception escaping a handler. -/
def handlePacket (s : DriverState) : Packet → Option DriverState
  | .rspGapConnectDirect _ result => some { s with response_return := result }
  | .evtConnectionStatus conn flags => some (ble_evt_connection_status s conn flags)
  | .evtConnectionDisconnected _ reason =>
    some { s with connected := false, encrypted := false, bonded := false,
                  event_return := reason }
  | .rspConnectionDisconnect _ result => some { s with response_return := result }
  | .rspConnectionGetRssi _ rssi => some { s with response_return := rssi }
  | .rspSmSetBondableMode => some s
  | .rspSmEncryptStart _ result => some { s with response_return := result }
  | .evtSmBondingFail result =>
    some { s with bonding_fail := true, event_return := result }
  | .evtSmBondStatus bond =>
    some (if s.bond_expected
          then { s with bond_expected := false, bonded := true }
          else { s with stored_bonds := s.stored_bonds ++ [bond] })
  | .rspSmGetBonds bonds => some { s with num_bonds := bonds }
  | .evtGapScanResponse rssi pt sender name dataDict =>
    some (ble_evt_gap_scan_response s rssi pt sender name dataDict)
  | .evtFindInformationFound chrhandle uuid uc =>
    ble_evt_attclient_find_information_found s chrhandle uuid uc
  | .evtProcedureCompleted _ result _ =>
    some { s with procedure_completed := true, event_return := result }
  | .rspAttclientAttributeWrite _ result => some { s with response_return := result }
  | .rspAttclientReadByHandle _ result => some { s with response_return := result }
  | .evtAttclientAttributeValue _ _ _ value =>
    some { s with attribute_value_received := true, attribute_value := value }
  | .generic => some s

/-- Fold the handler bank over a list of popped packets. -/
def runHandlers (s : DriverState) : List Packet → Option DriverState
  | [] => some s
  | p :: ps =>
    match handlePacket s p with
    | none => none
    | some s' => runHandlers s' ps

/-- Packets whose handler never raises (every handler except the discovery
handler, which indexes into possibly-empty lists). -/
def handlerTotal : Packet → Bool
  | .evtFindInformationFound _ _ _ => false
  | _ => true

/-- One iteration of the wait loop: the elapsed-time reading taken at the
top of the iteration and the outcome of the bounded queue pop
(`none` = `Queue.Empty`). -/
structure WaitStep where
  elapsed : Rat := 0
  pop : Option Packet := none
deriving Repr, DecidableEq

/-- Result of a `_process_packets_until` call. -/
inductive WaitOutcome where
  | found (s : DriverState) (rest : List WaitStep)
  | timedOut (s : DriverState) (e : Err)
  | handlerError (s : DriverState)
  | exhausted (s : DriverState)
deriving Repr, DecidableEq

/-- Timeout test `elapsed_time >= timeout` performed when a timeout was
given. -/
def timeoutReached : Option Rat → Rat → Bool
  | none, _ => false
  | some t, e => t ≤ e

/-- `_process_packets_until(expected_packet_choices, timeout,
exception_type)`: each iteration first checks the timeout, then pops; a
popped packet is run through its handler unconditionally (the match flag
is set before the handler runs), and the loop returns once the popped
packet kind is accepted. -/
def process_packets_until (accepted : List PacketType) (timeout : Option Rat)
    (exc : ExcClass) (s : DriverState) : List WaitStep → WaitOutcome
  | [] => .exhausted s
  | step :: rest =>
    if timeoutReached timeout step.elapsed then
      .timedOut s (exc.toErr "timed out")
    else
      match step.pop with
      | none => process_packets_until accepted timeout exc s rest
      | some pkt =>
        match handlePacket s pkt with
        | none => .handlerError s
        | some s' =>
          if pkt.kind ∈ accepted then .found s' rest
          else process_packets_until accepted timeout exc s' rest

/-- Result of a facade operation: normal return, raised exception,
indefinite block (the wait ran out of queue pops without a match), or an
unhandled exception escaping a packet handler. -/
inductive Outcome (α : Type) where
  | ok (a : α) (s : DriverState) (rest : List WaitStep)
  | err (e : Err) (s : DriverState)
  | blocked (s : DriverState)
  | crashed (s : DriverState)
deriving Repr, DecidableEq

/-- Sequence a wait into a continuation, mapping abnormal wait outcomes to
the corresponding operation outcomes. -/
def waitThen {α : Type} (accepted : List PacketType) (timeout : Option Rat)
    (exc : ExcClass) (s : DriverState) (steps : List WaitStep)
    (k : DriverState → List WaitStep → Outcome α) : Outcome α :=
  match process_packets_until accepted timeout exc s steps with
  | .found s' rest => k s' rest
  | .timedOut s' e => .err e s'
  | .handlerError s' => .crashed s'
  | .exhausted s' => .blocked s'

/-- The `connect(address, timeout, addr_type)` operation: send
`gap_connect_direct`, wait (unbounded) for its response and fail on a
nonzero result, then wait — bounded by the caller's timeout and raising
`NotConnectedError` on expiry — for a connection status event. -/
def connect (timeout : Rat) (s : DriverState) (steps : List WaitStep) :
    Outcome Unit :=
  let s0 := s.send .connectDirect
  waitThen [.rspGapConnectDirect] none .bgapiError s0 steps fun s1 r1 =>
    if s1.response_return ≠ 0 then .err (.bgapi "connect_direct failed") s1
    else
      waitThen [.evtConnectionStatus] (some timeout) .notConnectedError s1 r1
        fun s2 r2 => .ok () s2 r2

/-- The `disconnect(fail_quietly)` operation: send the disconnect command,
wait for its response; on a nonzero result either return quietly or raise;
on a zero result wait (unbounded) for the disconnected event. -/
def disconnect (failQuietly : Bool) (s : DriverState) (steps : List WaitStep) :
    Outcome Unit :=
  let s0 := s.send (.disconnectCmd s.connection_handle)
  waitThen [.rspConnectionDisconnect] none .bgapiError s0 steps fun s1 r1 =>
    if s1.response_return ≠ 0 then
      if failQuietly then .ok () s1 r1
      else .err (.bgapi "disconnect failed") s1
    else
      waitThen [.evtConnectionDisconnected] none .bgapiError s1 r1 fun s2 r2 =>
        .ok () s2 r2

/-- One attempt `_get_rssi_once`: check the connection, send the RSSI
command, wait for its response (or a disconnection), re-check the
connection, and hand the RSSI stored in `_response_return` to the
continuation. -/
def get_rssi_once {α : Type} (s : DriverState) (steps : List WaitStep)
    (k : Int → DriverState → List WaitStep → Outcome α) : Outcome α :=
  if s.connected = false then .err (.notConnected "Not connected") s
  else
    let s0 := s.send (.getRssiCmd s.connection_handle)
    waitThen [.rspConnectionGetRssi, .evtConnectionDisconnected] none
      .bgapiError s0 steps fun s1 r1 =>
      if s1.connected = false then .err (.notConnected "Not connected") s1
      else k s1.response_return s1 r1

/-- The retry loop of `get_rssi`, counting down the remaining attempts. -/
def getRssiLoop : Nat → DriverState → List WaitStep → Outcome Int
  | 0, s, _ => .err (.bgapi "get rssi failed") s
  | n + 1, s, steps =>
    get_rssi_once s steps fun rssi s1 r1 =>
      if rssi ≠ 25 then .ok rssi s1 r1
      else getRssiLoop n s1 r1

/-- The `get_rssi()` operation: up to 3 attempts, returning the first
reading different from the spurious sentinel 25 and raising `BGAPIError`
when all attempts read 25. -/
def get_rssi (s : DriverState) (steps : List WaitStep) : Outcome Int :=
  getRssiLoop 3 s steps

/-- The `attribute_write(attribute, value)` operation: check the
connection, send the write, wait for its response (fail on nonzero), wait
for procedure-completed (fail on nonzero event result). -/
def attribute_write (atthandle : Nat) (value : List Nat) (s : DriverState)
    (steps : List WaitStep) : Outcome Unit :=
  if s.connected = false then .err (.notConnected "Not connected") s
  else
    let s0 := s.send (.attributeWriteCmd atthandle value)
    waitThen [.rspAttclientAttributeWrite, .evtConnectionDisconnected] none
      .bgapiError s0 steps fun s1 r1 =>
      if s1.connected = false then .err (.notConnected "Not connected") s1
      else if s1.response_return ≠ 0 then .err (.bgapi "attribute_write failed") s1
      else
        waitThen [.evtProcedureCompleted, .evtConnectionDisconnected] none
          .bgapiError s1 r1 fun s2 r2 =>
          let s3 := { s2 with procedure_completed := false }
          if s3.connected = false then .err (.notConnected "Not connected") s3
          else if s3.event_return ≠ 0 then .err (.bgapi "attribute_write failed") s3
          else .ok () s3 r2

/-- Test performed by the descriptor search loop in `subscribe`. -/
def isCccd (d : GattDescriptor) : Bool :=
  d.descriptor_type = DescriptorType.clientCharacteristicConfiguration

/-- The `subscribe(characteristic, notifications, indications, callback)`
operation: assert that something was requested, reject indications as
untested, locate the client characteristic configuration descriptor
(fail when absent), write the config bitmask to it via `attribute_write`,
and finally register the callback under the characteristic handle.  The
callback is modelled by an abstract identifier. -/
def subscribe (ch : GattCharacteristic) (notifications indications : Bool)
    (callback : Option Nat) (s : DriverState) (steps : List WaitStep) :
    Outcome Unit :=
  if ¬ (notifications || indications) then .err .assertionFailed s
  else if indications then
    .err (.notImplemented "Indication functionality not tested") s
  else
    match ch.descriptors.find? isCccd with
    | none =>
      .err (.bgapi "no client characteristic configuration descriptor found") s
    | some cccd =>
      let configByte : Nat :=
        (if notifications then 1 else 0) ||| (if indications then 2 else 0)
      let configVal := [configByte, 0]
      match attribute_write cccd.handle configVal s steps with
      | .ok _ s1 r1 =>
        let s2 := match callback with
          | some cb => { s1 with callbacks := assocSet s1.callbacks ch.handle cb }
          | none => s1
        .ok () s2 r1
      | .err e s1 => .err e s1
      | .blocked s1 => .blocked s1
      | .crashed s1 => .crashed s1

/-- Accepted kinds of the bond event-wait loop. -/
def bondKinds : List PacketType :=
  [.evtConnectionStatus, .evtSmBondingFail, .evtConnectionDisconnected]

/-- Every successful wait consumes at least the matched step. -/
theorem process_packets_until_found_length {accepted : List PacketType}
    {timeout : Option Rat} {exc : ExcClass} {s s' : DriverState}
    {steps rest : List WaitStep}
    (h : process_packets_until accepted timeout exc s steps = .found s' rest) :
    rest.length < steps.length := by
  induction steps generalizing s with
  | nil => simp [process_packets_until] at h
  | cons step tail ih =>
    rw [process_packets_until] at h
    by_cases ht : timeoutReached timeout step.elapsed
    · simp [ht] at h
    · simp only [ht, if_false, Bool.false_eq_true] at h
      cases hp : step.pop with
      | none =>
        rw [hp] at h
        exact Nat.lt_trans (ih h) (Nat.lt_succ_self _)
      | some pkt =>
        rw [hp] at h
        cases hh : handlePacket s pkt with
        | none => simp [hh] at h
        | some s1 =>
          simp only [hh] at h
          by_cases hk : pkt.kind ∈ accepted
          · simp only [hk, if_true] at h
            cases h
            exact Nat.lt_succ_self _
          · simp only [hk, if_false] at h
            exact Nat.lt_trans (ih h) (Nat.lt_succ_self _)

/-- The event-wait loop of `bond`: while not `bonding_fail` and connected
and not `bonded` and not `encrypted`, wait for a status, bonding-fail or
disconnected packet. -/
def bondLoop (s : DriverState) (steps : List WaitStep) : Outcome Unit :=
  if s.bonding_fail = false ∧ s.connected = true ∧ s.bonded = false ∧
      s.encrypted = false then
    match h : process_packets_until bondKinds none .bgapiError s steps with
    | .found s' rest => bondLoop s' rest
    | .timedOut s' e => .err e s'
    | .handlerError s' => .crashed s'
    | .exhausted s' => .blocked s'
  else .ok () s steps
termination_by steps.length
decreasing_by exact process_packets_until_found_length h

/-- Code following the event-wait loop in `bond`: the final connection
check and the bonding-failure check. -/
def bondTail (s : DriverState) (rest : List WaitStep) : Outcome Unit :=
  if s.connected = false then .err (.notConnected "Not connected") s
  else if s.bonding_fail then .err (.bgapi "encrypt_start failed") s
  else .ok () s rest

/-- The `bond()` operation: check the connection, set bondable mode and
wait for the response, start encryption with bonding and wait for the
response (fail on nonzero result), run the event-wait loop, then the
final checks. -/
def bond (s : DriverState) (steps : List WaitStep) : Outcome Unit :=
  if s.connected = false then .err (.notConnected "Not connected") s
  else
    let s0 := ({ s with bond_expected := true }).send (.setBondableMode 1)
    waitThen [.rspSmSetBondableMode, .evtConnectionDisconnected] none
      .bgapiError s0 steps fun s1 r1 =>
      if s1.connected = false then .err (.notConnected "Not connected") s1
      else
        let s2 := ({ s1 with bonding_fail := false }).send
          (.encryptStart s1.connection_handle 1)
        waitThen [.rspSmEncryptStart, .evtConnectionDisconnected] none
          .bgapiError s2 r1 fun s3 r2 =>
          if s3.connected = false then .err (.notConnected "Not connected") s3
          else if s3.response_return ≠ 0 then .err (.bgapi "encrypt_start failed") s3
          else
            match bondLoop s3 r2 with
            | .ok _ s4 r3 => bondTail s4 r3
            | .err e s4 => .err e s4
            | .blocked s4 => .blocked s4
            | .crashed s4 => .crashed s4

/-- A handler outside the discovery handler always returns a state. -/
theorem handlerTotal_some (s : DriverState) (q : Packet)
    (hq : handlerTotal q = true) : ∃ s', handlePacket s q = some s' := by
  cases q <;> first
    | exact ⟨_, rfl⟩
    | simp [handlerTotal] at hq

/-- Waiting with a timeout on a pop sequence that reaches the deadline
before any accepted packet raises the requested exception class: every
iteration strictly before the deadline processes its packet (none
accepted, all handler-safe) and the first at-or-past-deadline clock
reading raises. -/
theorem process_packets_until_timeout (accepted : List PacketType) (t : Rat)
    (exc : ExcClass) (a : List WaitStep) (b : WaitStep) (c : List WaitStep)
    (s : DriverState)
    (ha : ∀ st ∈ a, st.elapsed < t ∧ ∀ q, st.pop = some q →
            q.kind ∉ accepted ∧ handlerTotal q = true)
    (hb : t ≤ b.elapsed) :
    ∃ s', process_packets_until accepted (some t) exc s (a ++ b :: c)
      = .timedOut s' (exc.toErr "timed out") := by
  induction a generalizing s with
  | nil =>
    refine ⟨s, ?_⟩
    rw [List.nil_append, process_packets_until]
    have : timeoutReached (some t) b.elapsed = true := by
      simp [timeoutReached, hb]
    rw [this]
    simp
  | cons st tail ih =>
    have hst := ha st (by simp)
    have hnt : timeoutReached (some t) st.elapsed = false := by
      simp [timeoutReached]
      exact hst.1
    rw [List.cons_append, process_packets_until, hnt]
    simp only [Bool.false_eq_true, if_false]
    cases hpop : st.pop with
    | none =>
      exact ih s (fun st' hst' => ha st' (List.mem_cons_of_mem st hst'))
    | some q =>
      have hq := hst.2 q hpop
      obtain ⟨s1, hs1⟩ := handlerTotal_some s q hq.2
      simp only [hs1, hq.1, if_false]
      exact ih s1 (fun st' hst' => ha st' (List.mem_cons_of_mem st hst'))

/-- C1: `_process_packets_until` applies the handler of every popped
packet — all non-matching packets before the match and the matching
packet itself — to the driver state, and returns right after processing
the first packet whose kind is accepted, leaving every later queue entry
unpopped. -/
theorem wait_for_processes_all_then_returns (accepted : List PacketType)
    (exc : ExcClass) (s s₁ s₂ : DriverState) (pre : List WaitStep) (e : Rat)
    (p : Packet) (post : List WaitStep)
    (hpre : ∀ st ∈ pre, ∀ q, st.pop = some q → q.kind ∉ accepted)
    (hmatch : p.kind ∈ accepted)
    (hrun : runHandlers s (pre.filterMap (fun st => st.pop)) = some s₁)
    (hp : handlePacket s₁ p = some s₂) :
    process_packets_until accepted none exc s (pre ++ ⟨e, some p⟩ :: post)
      = .found s₂ post := by
  induction pre generalizing s with
  | nil =>
    simp only [List.filterMap_nil, runHandlers, Option.some.injEq] at hrun
    subst hrun
    rw [List.nil_append, process_packets_until]
    simp only [timeoutReached, Bool.false_eq_true, if_false]
    simp [hp, hmatch]
  | cons st tail ih =>
    rw [List.cons_append, process_packets_until]
    simp only [timeoutReached, Bool.false_eq_true, if_false]
    cases hpop : st.pop with
    | none =>
      simp only [List.filterMap_cons, hpop] at hrun
      exact ih s (fun st' hst' => hpre st' (List.mem_cons_of_mem st hst')) hrun
    | some q =>
      simp only [List.filterMap_cons, hpop] at hrun
      rw [runHandlers] at hrun
      cases hh : handlePacket s q with
      | none => rw [hh] at hrun; cases hrun
      | some s' =>
        rw [hh] at hrun
        have hq : q.kind ∉ accepted := hpre st (by simp) q hpop
        simp only [hh, hq, if_false]
        exact ih s' (fun st' hst' => hpre st' (List.mem_cons_of_mem st hst')) hrun

/-- Closed instance of `wait_for_processes_all_then_returns`: a generic
packet is popped and handled, then a procedure-completed packet is popped,
handled and matched, and the final queue entry is left alone. -/
theorem wait_for_processes_all_then_returns_witness :
    process_packets_until [PacketType.evtProcedureCompleted] none .bgapiError {}
      [⟨0, some Packet.generic⟩, ⟨0, some (Packet.evtProcedureCompleted 1 0 2)⟩,
       ⟨0, none⟩]
      = .found { procedure_completed := true, event_return := 0 } [⟨0, none⟩] :=
  wait_for_processes_all_then_returns [PacketType.evtProcedureCompleted]
    .bgapiError {} {} { procedure_completed := true, event_return := 0 }
    [⟨0, some Packet.generic⟩] 0 (Packet.evtProcedureCompleted 1 0 2) [⟨0, none⟩]
    (by
      intro st hst q hq
      rw [List.mem_singleton] at hst
      subst hst
      cases hq
      decide)
    (by decide) rfl rfl

/-- C2: when the connect-direct response has result 0 and no
connection-status event is ever popped, `connect` raises
`NotConnectedError` (not `BGAPIError`) at the first clock reading at or
past the caller's timeout; every iteration strictly before the deadline is
processed without raising. -/
theorem connect_times_out_not_connected (t : Rat) (s : DriverState)
    (e₀ : Rat) (hdl : Nat) (a : List WaitStep) (b : WaitStep)
    (c : List WaitStep)
    (ha : ∀ st ∈ a, st.elapsed < t ∧ ∀ q, st.pop = some q →
            q.kind ≠ PacketType.evtConnectionStatus ∧ handlerTotal q = true)
    (hb : t ≤ b.elapsed) :
    ∃ s', connect t s
        (⟨e₀, some (.rspGapConnectDirect hdl 0)⟩ :: (a ++ b :: c))
      = .err (.notConnected "timed out") s' := by
  obtain ⟨s', heq⟩ := process_packets_until_timeout [.evtConnectionStatus] t
    .notConnectedError a b c { s.send .connectDirect with response_return := 0 }
    (by
      intro st hst
      refine ⟨(ha st hst).1, fun q hq => ⟨?_, ((ha st hst).2 q hq).2⟩⟩
      simpa using ((ha st hst).2 q hq).1)
    hb
  refine ⟨s', ?_⟩
  rw [connect, waitThen, process_packets_until]
  simp only [timeoutReached, Bool.false_eq_true, if_false]
  simp only [handlePacket, Packet.kind, List.mem_singleton, if_true,
    reduceCtorEq, reduceIte]
  simp only [waitThen, heq, ExcClass.toErr]
  simp

/-- Closed instance of `connect_times_out_not_connected`: the response
arrives with result 0, two empty polls pass below the 1-second timeout,
and the clock reading 1 triggers the raise. -/
theorem connect_times_out_not_connected_witness :
    ∃ s', connect 1 {}
        (⟨0, some (.rspGapConnectDirect 0 0)⟩ ::
          ([⟨0, none⟩, ⟨(1 : Rat) / 2, none⟩] ++ ⟨1, none⟩ :: []))
      = .err (.notConnected "timed out") s' :=
  connect_times_out_not_connected 1 {} 0 0 [⟨0, none⟩, ⟨(1 : Rat) / 2, none⟩]
    ⟨1, none⟩ []
    (by
      intro st hst
      simp only [List.mem_cons, List.not_mem_nil, or_false] at hst
      rcases hst with rfl | rfl
      · exact ⟨by norm_num, fun q hq => by cases hq⟩
      · exact ⟨by norm_num, fun q hq => by cases hq⟩)
    (by norm_num)

/-- C3: whatever numeric result the disconnect response carries,
`disconnect(fail_quietly=true)` returns normally: a nonzero result is
swallowed (returning before the disconnected-event wait), a zero result
proceeds through the disconnected event and also returns normally. -/
theorem disconnect_fail_quietly_returns (r : Int) (h c : Nat) (reason : Int)
    (s : DriverState) :
    ∃ s' rest, disconnect true s
      [⟨0, some (.rspConnectionDisconnect h r)⟩,
       ⟨0, some (.evtConnectionDisconnected c reason)⟩] = .ok () s' rest := by
  by_cases hr : r = 0
  · subst hr
    exact ⟨_, _, by
      rw [disconnect]
      simp [waitThen, process_packets_until, timeoutReached, handlePacket,
        Packet.kind]
      exact ⟨rfl, rfl⟩⟩
  · exact ⟨_, _, by
      rw [disconnect]
      simp [waitThen, process_packets_until, timeoutReached, handlePacket,
        Packet.kind, hr]
      exact ⟨rfl, rfl⟩⟩

/-- Unrolling of the 3-attempt retry loop of `get_rssi`
(`for i in range(0, num_attempts)` with `num_attempts = 3`). -/
theorem get_rssi_unfold (s : DriverState) (steps : List WaitStep) :
    get_rssi s steps = get_rssi_once s steps (fun r1 s1 q1 =>
      if r1 ≠ 25 then .ok r1 s1 q1
      else get_rssi_once s1 q1 (fun r2 s2 q2 =>
        if r2 ≠ 25 then .ok r2 s2 q2
        else get_rssi_once s2 q2 (fun r3 s3 q3 =>
          if r3 ≠ 25 then .ok r3 s3 q3
          else .err (.bgapi "get rssi failed") s3))) := rfl

/-- C4: `get_rssi` makes at most 3 attempts while the connection stays up;
the first reading different from the sentinel 25 is returned immediately
with the later queue entries unconsumed, and `BGAPIError` is raised
exactly when all three readings are 25. -/
theorem get_rssi_retries_sentinel (s : DriverState)
    (hconn : s.connected = true) (h₁ h₂ h₃ : Nat) (r₁ r₂ r₃ : Int)
    (extra : List WaitStep) :
    (r₁ ≠ 25 → ∃ s', get_rssi s
        (⟨0, some (.rspConnectionGetRssi h₁ r₁)⟩ ::
         ⟨0, some (.rspConnectionGetRssi h₂ r₂)⟩ ::
         ⟨0, some (.rspConnectionGetRssi h₃ r₃)⟩ :: extra)
      = .ok r₁ s' (⟨0, some (.rspConnectionGetRssi h₂ r₂)⟩ ::
         ⟨0, some (.rspConnectionGetRssi h₃ r₃)⟩ :: extra)) ∧
    (r₁ = 25 → r₂ ≠ 25 → ∃ s', get_rssi s
        (⟨0, some (.rspConnectionGetRssi h₁ r₁)⟩ ::
         ⟨0, some (.rspConnectionGetRssi h₂ r₂)⟩ ::
         ⟨0, some (.rspConnectionGetRssi h₃ r₃)⟩ :: extra)
      = .ok r₂ s' (⟨0, some (.rspConnectionGetRssi h₃ r₃)⟩ :: extra)) ∧
    (r₁ = 25 → r₂ = 25 → r₃ ≠ 25 → ∃ s', get_rssi s
        (⟨0, some (.rspConnectionGetRssi h₁ r₁)⟩ ::
         ⟨0, some (.rspConnectionGetRssi h₂ r₂)⟩ ::
         ⟨0, some (.rspConnectionGetRssi h₃ r₃)⟩ :: extra)
      = .ok r₃ s' extra) ∧
    (r₁ = 25 → r₂ = 25 → r₃ = 25 → ∃ s', get_rssi s
        (⟨0, some (.rspConnectionGetRssi h₁ r₁)⟩ ::
         ⟨0, some (.rspConnectionGetRssi h₂ r₂)⟩ ::
         ⟨0, some (.rspConnectionGetRssi h₃ r₃)⟩ :: extra)
      = .err (.bgapi "get rssi failed") s') := by
  refine ⟨?_, ?_, ?_, ?_⟩
  · intro hr₁
    exact ⟨_, by
      rw [get_rssi_unfold]
      simp [get_rssi_once, waitThen, process_packets_until,
      timeoutReached, handlePacket, Packet.kind, DriverState.send, hconn, hr₁]
      rfl⟩
  · intro hr₁ hr₂
    subst hr₁
    exact ⟨_, by
      rw [get_rssi_unfold]
      simp [get_rssi_once, waitThen, process_packets_until,
      timeoutReached, handlePacket, Packet.kind, DriverState.send, hconn, hr₂]
      rfl⟩
  · intro hr₁ hr₂ hr₃
    subst hr₁; subst hr₂
    exact ⟨_, by
      rw [get_rssi_unfold]
      simp [get_rssi_once, waitThen, process_packets_until,
      timeoutReached, handlePacket, Packet.kind, DriverState.send, hconn, hr₃]
      rfl⟩
  · intro hr₁ hr₂ hr₃
    subst hr₁; subst hr₂; subst hr₃
    exact ⟨_, by
      rw [get_rssi_unfold]
      simp [get_rssi_once, waitThen, process_packets_until,
      timeoutReached, handlePacket, Packet.kind, DriverState.send, hconn]
      rfl⟩

/-- Closed instance of `get_rssi_retries_sentinel`: all three readings are
the sentinel 25 and `get_rssi` fails with `BGAPIError`. -/
theorem get_rssi_retries_sentinel_witness :
    ∃ s', get_rssi { connected := true }
        (⟨0, some (.rspConnectionGetRssi 0 25)⟩ ::
         ⟨0, some (.rspConnectionGetRssi 0 25)⟩ ::
         ⟨0, some (.rspConnectionGetRssi 0 25)⟩ :: [])
      = .err (.bgapi "get rssi failed") s' :=
  ((get_rssi_retries_sentinel { connected := true } rfl 0 0 0 25 25 25
    []).2.2.2) rfl rfl rfl

/-- Looking up the key just set returns the value just stored. -/
theorem assocGet_assocSet_self {κ α : Type} [DecidableEq κ]
    (l : List (κ × α)) (k : κ) (v : α) :
    assocGet (assocSet l k v) k = some v := by
  induction l with
  | nil => simp [assocSet, assocGet]
  | cons kv rest ih =>
    obtain ⟨k', v'⟩ := kv
    by_cases hk : k' = k
    · subst hk
      simp [assocSet, assocGet]
    · simp [assocSet, assocGet, hk, ih]

/-- C5: two scan-response events for the same (previously unseen) address
and the same advertisement packet kind, processed in order: the stored
field map for that kind ends up being the second map exactly when it has
strictly more parsed fields than the first, and the stored name is the
first non-empty one. -/
theorem scan_response_merge_rule (s : DriverState) (sender : List Nat)
    (pt : Option Nat) (name₁ name₂ : String) (m₁ m₂ : FieldMap)
    (rssi₁ rssi₂ : Int)
    (hnew : assocGet s.devices_discovered sender.reverse = none) :
    ∃ s₂ dev,
      runHandlers s
        [.evtGapScanResponse rssi₁ pt sender name₁ m₁,
         .evtGapScanResponse rssi₂ pt sender name₂ m₂] = some s₂ ∧
      assocGet s₂.devices_discovered sender.reverse = some dev ∧
      assocGet dev.packet_data pt
        = some (if m₁.length < m₂.length then m₂ else m₁) ∧
      dev.name = (if name₁ = "" then name₂ else name₁) := by
  by_cases hn : name₁ = ""
  · by_cases hm : m₁.length < m₂.length
    · refine ⟨_, { name := name₂, rssi := rssi₁, packet_data := [(pt, m₂)] },
        rfl, ?_, ?_, ?_⟩ <;>
        simp [runHandlers, handlePacket, ble_evt_gap_scan_response, hnew, hn,
          hm, assocGet_assocSet_self, assocGet, assocSet]
    · refine ⟨_, { name := name₂, rssi := rssi₁, packet_data := [(pt, m₁)] },
        rfl, ?_, ?_, ?_⟩ <;>
        simp [runHandlers, handlePacket, ble_evt_gap_scan_response, hnew, hn,
          hm, assocGet_assocSet_self, assocGet, assocSet]
  · by_cases hm : m₁.length < m₂.length
    · refine ⟨_, { name := name₁, rssi := rssi₁, packet_data := [(pt, m₂)] },
        rfl, ?_, ?_, ?_⟩ <;>
        simp [runHandlers, handlePacket, ble_evt_gap_scan_response, hnew, hn,
          hm, assocGet_assocSet_self, assocGet, assocSet]
    · refine ⟨_, { name := name₁, rssi := rssi₁, packet_data := [(pt, m₁)] },
        rfl, ?_, ?_, ?_⟩ <;>
        simp [runHandlers, handlePacket, ble_evt_gap_scan_response, hnew, hn,
          hm, assocGet_assocSet_self, assocGet, assocSet]

/-- Closed instance of `scan_response_merge_rule`: the second packet
carries one more parsed field than the first, so its map replaces the
stored one, and the first name wins. -/
theorem scan_response_merge_rule_witness :
    ∃ s₂ dev,
      runHandlers {}
        [.evtGapScanResponse 0 (some 0) [1, 2] "a" [],
         .evtGapScanResponse 0 (some 0) [1, 2] "b" [(5, 7)]] = some s₂ ∧
      assocGet s₂.devices_discovered [2, 1] = some dev ∧
      assocGet dev.packet_data (some 0)
        = some (if ([] : FieldMap).length < [(5, 7)].length then [(5, 7)] else []) ∧
      dev.name = (if "a" = "" then "b" else "a") :=
  scan_response_merge_rule {} [1, 2] (some 0) "a" "b" [] [(5, 7)] 0 0 rfl

/-- Updating the last element of a nonempty list in decomposed form. -/
theorem modifyLastM_append {α : Type} (g : α → Option α) (init : List α)
    (a : α) :
    modifyLastM g (init ++ [a]) = (g a).map (fun a' => init ++ [a']) := by
  induction init with
  | nil => cases hga : g a <;> simp [modifyLastM, hga]
  | cons x xs ih =>
    cases xs with
    | nil => cases hga : g a <;> simp [modifyLastM, hga]
    | cons y ys =>
      rw [List.cons_append, List.cons_append, modifyLastM]
      rw [← List.cons_append, ih]
      cases hga : g a <;> simp

/-- C6: the find-information-found handler appends a Service for a
primary or secondary service UUID, appends a Characteristic to the last
Service for a characteristic-declaration UUID, appends a Descriptor to
the last Characteristic of the last Service for a recognized descriptor
UUID; processing {primary service, characteristic, descriptor} twice from
an empty accumulator yields exactly two Services in arrival order, each
with one Characteristic owning one Descriptor. -/
theorem find_information_builds_hierarchy :
    (∀ (s : DriverState) (h u : Nat),
      handlePacket s (.evtFindInformationFound h u .attPrimaryService)
        = some { s with services := s.services ++ [{ handle := h, uuid := u }] } ∧
      handlePacket s (.evtFindInformationFound h u .attSecondaryService)
        = some { s with services :=
            s.services ++ [{ handle := h, uuid := u, secondary := true }] }) ∧
    (∀ (s : DriverState) (init : List GattService) (svc : GattService)
        (h u : Nat), s.services = init ++ [svc] →
      handlePacket s (.evtFindInformationFound h u .attCharacteristic)
        = some { s with services := init ++
            [{ svc with characteristics :=
                 svc.characteristics ++ [{ handle := h, uuid := u }] }] }) ∧
    (∀ (s : DriverState) (init : List GattService) (svc : GattService)
        (cinit : List GattCharacteristic) (ch : GattCharacteristic)
        (h u : Nat) (d : DescriptorType),
      s.services = init ++ [svc] → svc.characteristics = cinit ++ [ch] →
      handlePacket s (.evtFindInformationFound h u (.descType d))
        = some { s with services := init ++
            [{ svc with characteristics := cinit ++
                 [{ ch with descriptors := ch.descriptors ++
                      [{ handle := h, uuid := u, descriptor_type := d }] }] }] }) ∧
    (∀ (s : DriverState) (h₁ u₁ h₂ u₂ h₃ u₃ h₄ u₄ h₅ u₅ h₆ u₆ : Nat)
        (d₃ d₆ : DescriptorType), s.services = [] →
      ∃ s', runHandlers s
          [.evtFindInformationFound h₁ u₁ .attPrimaryService,
           .evtFindInformationFound h₂ u₂ .attCharacteristic,
           .evtFindInformationFound h₃ u₃ (.descType d₃),
           .evtFindInformationFound h₄ u₄ .attPrimaryService,
           .evtFindInformationFound h₅ u₅ .attCharacteristic,
           .evtFindInformationFound h₆ u₆ (.descType d₆)] = some s' ∧
        s'.services =
          [{ handle := h₁, uuid := u₁, characteristics :=
               [{ handle := h₂, uuid := u₂, descriptors :=
                    [{ handle := h₃, uuid := u₃, descriptor_type := d₃ }] }] },
           { handle := h₄, uuid := u₄, characteristics :=
               [{ handle := h₅, uuid := u₅, descriptors :=
                    [{ handle := h₆, uuid := u₆, descriptor_type := d₆ }] }] }]) := by
  refine ⟨fun s h u => ⟨rfl, rfl⟩, ?_, ?_, ?_⟩
  · intro s init svc h u hs
    simp [handlePacket, ble_evt_attclient_find_information_found, hs,
      modifyLastM_append]
  · intro s init svc cinit ch h u d hs hc
    simp [handlePacket, ble_evt_attclient_find_information_found, hs, hc,
      modifyLastM_append]
  · intro s h₁ u₁ h₂ u₂ h₃ u₃ h₄ u₄ h₅ u₅ h₆ u₆ d₃ d₆ hs
    exact ⟨_, by
      simp [runHandlers, handlePacket, ble_evt_attclient_find_information_found,
        hs, modifyLastM]
      rfl, by
      simp [runHandlers, handlePacket, ble_evt_attclient_find_information_found,
        hs, modifyLastM]⟩

/-- Closed instance of `find_information_builds_hierarchy`: the doubled
event sequence on an empty accumulator. -/
theorem find_information_builds_hierarchy_witness :
    (handlePacket {} (.evtFindInformationFound 1 10 .attPrimaryService)
      = some { services := [{ handle := 1, uuid := 10 }] }) ∧
    ∃ s', runHandlers {}
        [.evtFindInformationFound 1 10 .attPrimaryService,
         .evtFindInformationFound 2 20 .attCharacteristic,
         .evtFindInformationFound 3 30
           (.descType .clientCharacteristicConfiguration),
         .evtFindInformationFound 4 40 .attPrimaryService,
         .evtFindInformationFound 5 50 .attCharacteristic,
         .evtFindInformationFound 6 60 (.descType (.otherDescriptor 2))]
        = some s' ∧
      s'.services =
        [{ handle := 1, uuid := 10, characteristics :=
             [{ handle := 2, uuid := 20, descriptors :=
                  [{ handle := 3, uuid := 30, descriptor_type :=
                       .clientCharacteristicConfiguration }] }] },
         { handle := 4, uuid := 40, characteristics :=
             [{ handle := 5, uuid := 50, descriptors :=
                  [{ handle := 6, uuid := 60, descriptor_type :=
                       .otherDescriptor 2 }] }] }] :=
  ⟨(find_information_builds_hierarchy.1 {} 1 10).1,
   find_information_builds_hierarchy.2.2.2 {} 1 10 2 20 3 30 4 40 5 50 6 60
     .clientCharacteristicConfiguration (.otherDescriptor 2) rfl⟩

/-- C10: the find-information-found handler is partial.  With an empty
accumulator, a characteristic-declaration, characteristic-type,
descriptor-type or custom 128-bit UUID event makes it fail with the
out-of-range indexing error (modelled as `none`, not any `Err` value);
with a last Service owning no Characteristic, the three cases that index
the last Characteristic fail the same way; under the matching
nonemptiness preconditions every case succeeds. -/
theorem find_information_partiality :
    (∀ (s : DriverState) (h u n : Nat) (d : DescriptorType), s.services = [] →
      handlePacket s (.evtFindInformationFound h u .attCharacteristic) = none ∧
      handlePacket s (.evtFindInformationFound h u (.charType n)) = none ∧
      handlePacket s (.evtFindInformationFound h u (.descType d)) = none ∧
      handlePacket s (.evtFindInformationFound h u .custom128) = none) ∧
    (∀ (s : DriverState) (init : List GattService) (svc : GattService)
        (h u n : Nat) (d : DescriptorType),
      s.services = init ++ [svc] → svc.characteristics = [] →
      handlePacket s (.evtFindInformationFound h u (.charType n)) = none ∧
      handlePacket s (.evtFindInformationFound h u (.descType d)) = none ∧
      handlePacket s (.evtFindInformationFound h u .custom128) = none) ∧
    (∀ (s : DriverState) (init : List GattService) (svc : GattService)
        (h u n : Nat) (d : DescriptorType),
      s.services = init ++ [svc] →
      (handlePacket s
        (.evtFindInformationFound h u .attCharacteristic)).isSome = true ∧
      (∀ (cinit : List GattCharacteristic) (ch : GattCharacteristic),
        svc.characteristics = cinit ++ [ch] →
        (handlePacket s
          (.evtFindInformationFound h u (.charType n))).isSome = true ∧
        (handlePacket s
          (.evtFindInformationFound h u (.descType d))).isSome = true ∧
        (handlePacket s
          (.evtFindInformationFound h u .custom128)).isSome = true)) := by
  refine ⟨?_, ?_, ?_⟩
  · intro s h u n d hs
    refine ⟨?_, ?_, ?_, ?_⟩ <;>
      simp [handlePacket, ble_evt_attclient_find_information_found, hs,
        modifyLastM]
  · intro s init svc h u n d hs hc
    refine ⟨?_, ?_, ?_⟩ <;>
      simp [handlePacket, ble_evt_attclient_find_information_found, hs, hc,
        modifyLastM_append, modifyLastM]
  · intro s init svc h u n d hs
    refine ⟨?_, ?_⟩
    · simp [handlePacket, ble_evt_attclient_find_information_found, hs,
        modifyLastM_append]
    · intro cinit ch hc
      refine ⟨?_, ?_, ?_⟩ <;>
        simp [handlePacket, ble_evt_attclient_find_information_found, hs, hc,
          modifyLastM_append]

/-- Closed instance of `find_information_partiality`: a descriptor event
on an empty accumulator crashes with the indexing error, while the same
event after a service and a characteristic succeeds. -/
theorem find_information_partiality_witness :
    handlePacket {}
      (.evtFindInformationFound 3 30
        (.descType .clientCharacteristicConfiguration)) = none ∧
    (handlePacket
        { services := [{ handle := 1, uuid := 10, characteristics :=
            [{ handle := 2, uuid := 20 }] }] }
        (.evtFindInformationFound 3 30
          (.descType .clientCharacteristicConfiguration))).isSome = true :=
  ⟨(find_information_partiality.1 {} 3 30 0
      .clientCharacteristicConfiguration rfl).2.2.1,
   ((find_information_partiality.2.2
      { services := [{ handle := 1, uuid := 10, characteristics :=
          [{ handle := 2, uuid := 20 }] }] }
      [] { handle := 1, uuid := 10, characteristics :=
          [{ handle := 2, uuid := 20 }] }
      3 30 0 .clientCharacteristicConfiguration rfl).2
      [] { handle := 2, uuid := 20 } rfl).2.1⟩

/-- C8: the disconnected-event handler forces `connected`, `encrypted`
and `bonded` to false and records the reason in `event_return`; hence no
state produced by the handler bank can have `encrypted` or `bonded` true
when the packet just handled was a disconnection. -/
theorem disconnected_event_clears_connection_state :
    (∀ (s : DriverState) (conn : Nat) (reason : Int),
      handlePacket s (.evtConnectionDisconnected conn reason)
        = some { s with connected := false, encrypted := false,
                        bonded := false, event_return := reason }) ∧
    (∀ (s : DriverState) (p : Packet) (s' : DriverState),
      handlePacket s p = some s' →
      s'.encrypted = true ∨ s'.bonded = true →
      ∀ (conn : Nat) (reason : Int),
        p ≠ .evtConnectionDisconnected conn reason) := by
  refine ⟨fun s conn reason => rfl, ?_⟩
  intro s p s' hp hob conn reason heq
  subst heq
  simp only [handlePacket, Option.some.injEq] at hp
  subst hp
  rcases hob with hob | hob <;> simp at hob

/-- Closed instance of `disconnected_event_clears_connection_state`: a
concrete disconnection clears the flags, and a state with `encrypted`
true cannot have come from handling a disconnected event. -/
theorem disconnected_event_clears_connection_state_witness :
    handlePacket { connected := true, encrypted := true, bonded := true }
        (.evtConnectionDisconnected 1 8)
      = some { event_return := 8 } ∧
    Packet.generic ≠ .evtConnectionDisconnected 0 0 :=
  ⟨disconnected_event_clears_connection_state.1
      { connected := true, encrypted := true, bonded := true } 1 8,
   disconnected_event_clears_connection_state.2 { encrypted := true }
      Packet.generic { encrypted := true } rfl (Or.inl rfl) 0 0⟩

/-- The bond event-wait loop exits as soon as its `while` condition
fails. -/
theorem bondLoop_exit_eq (s : DriverState) (steps : List WaitStep)
    (h : ¬(s.bonding_fail = false ∧ s.connected = true ∧ s.bonded = false ∧
        s.encrypted = false)) :
    bondLoop s steps = .ok () s steps := by
  unfold bondLoop
  simp [h]

/-- One iteration of the bond event-wait loop whose inner wait finds an
accepted packet. -/
theorem bondLoop_found_eq (s : DriverState) (steps : List WaitStep)
    (hcond : s.bonding_fail = false ∧ s.connected = true ∧ s.bonded = false ∧
        s.encrypted = false)
    (s' : DriverState) (rest : List WaitStep)
    (hfound : process_packets_until bondKinds none .bgapiError s steps
      = .found s' rest) :
    bondLoop s steps = bondLoop s' rest := by
  conv_lhs => unfold bondLoop
  rw [if_pos hcond]
  split
  next h => rw [hfound] at h; cases h; rfl
  next h => rw [hfound] at h; cases h
  next h => rw [hfound] at h; cases h
  next h => rw [hfound] at h; cases h

/-- One iteration of the bond event-wait loop whose inner wait exhausted
its pop stream. -/
theorem bondLoop_exhausted_eq (s : DriverState) (steps : List WaitStep)
    (hcond : s.bonding_fail = false ∧ s.connected = true ∧ s.bonded = false ∧
        s.encrypted = false)
    (s' : DriverState)
    (hex : process_packets_until bondKinds none .bgapiError s steps
      = .exhausted s') :
    bondLoop s steps = .blocked s' := by
  unfold bondLoop
  rw [if_pos hcond]
  split
  next h => rw [hex] at h; cases h
  next h => rw [hex] at h; cases h
  next h => rw [hex] at h; cases h
  next h => rw [hex] at h; cases h; rfl

/-- One iteration of the bond event-wait loop whose inner wait hit a
handler error. -/
theorem bondLoop_handlerError_eq (s : DriverState) (steps : List WaitStep)
    (hcond : s.bonding_fail = false ∧ s.connected = true ∧ s.bonded = false ∧
        s.encrypted = false)
    (s' : DriverState)
    (hhe : process_packets_until bondKinds none .bgapiError s steps
      = .handlerError s') :
    bondLoop s steps = .crashed s' := by
  unfold bondLoop
  rw [if_pos hcond]
  split
  next h => rw [hhe] at h; cases h
  next h => rw [hhe] at h; cases h
  next h => rw [hhe] at h; cases h; rfl
  next h => rw [hhe] at h; cases h

/-- One iteration of the bond event-wait loop whose inner wait timed
out. -/
theorem bondLoop_timedOut_eq (s : DriverState) (steps : List WaitStep)
    (hcond : s.bonding_fail = false ∧ s.connected = true ∧ s.bonded = false ∧
        s.encrypted = false)
    (s' : DriverState) (e : Err)
    (hto : process_packets_until bondKinds none .bgapiError s steps
      = .timedOut s' e) :
    bondLoop s steps = .err e s' := by
  unfold bondLoop
  rw [if_pos hcond]
  split
  next h => rw [hto] at h; cases h
  next h => rw [hto] at h; cases h; rfl
  next h => rw [hto] at h; cases h
  next h => rw [hto] at h; cases h

/-- Failing the loop condition yields the claimed exit disjunction plus
the extra `encrypted` case present in the code. -/
theorem bond_cond_neg (s : DriverState)
    (h : ¬(s.bonding_fail = false ∧ s.connected = true ∧ s.bonded = false ∧
        s.encrypted = false)) :
    s.bonding_fail = true ∨ s.bonded = true ∨ s.encrypted = true ∨
      s.connected = false := by
  by_cases h1 : s.bonding_fail = true
  · exact Or.inl h1
  by_cases h2 : s.bonded = true
  · exact Or.inr (Or.inl h2)
  by_cases h3 : s.encrypted = true
  · exact Or.inr (Or.inr (Or.inl h3))
  by_cases h4 : s.connected = false
  · exact Or.inr (Or.inr (Or.inr h4))
  exact absurd ⟨by simpa using h1, by simpa using h4, by simpa using h2,
    by simpa using h3⟩ h

/-- C7 counterexample: the bond event-wait loop also exits when
`encrypted` becomes true — here a single connection-status packet with
the connected and encrypted flags makes the loop return with `bonded`
still false, `bonding_fail` still false and the connection still up, a
case in which the claim says the loop must keep waiting. -/
theorem bond_wait_loop_exits_on_encrypted :
    bondLoop { connected := true } [⟨0, some (.evtConnectionStatus 7 3)⟩]
      = .ok () { connected := true, encrypted := true, connection_handle := 7 }
          [] ∧
    ({ connected := true, encrypted := true, connection_handle := 7 }
      : DriverState).bonded = false ∧
    ({ connected := true, encrypted := true, connection_handle := 7 }
      : DriverState).bonding_fail = false ∧
    ({ connected := true, encrypted := true, connection_handle := 7 }
      : DriverState).connected = true := by
  refine ⟨?_, rfl, rfl, rfl⟩
  have h1 : process_packets_until bondKinds none .bgapiError
      { connected := true } [⟨0, some (.evtConnectionStatus 7 3)⟩]
      = .found { connected := true, encrypted := true, connection_handle := 7 }
          [] := by decide
  rw [bondLoop_found_eq _ _ (by decide) _ _ h1]
  exact bondLoop_exit_eq _ _ (by decide)

/-- C7 amended: the bond event-wait loop exits exactly when `bonded`,
`bonding_fail` or `encrypted` has become true or the connection has been
observed disconnected; on exit with `bonding_fail` set and the connection
still up, the code after the loop raises `BGAPIError`. -/
theorem bond_wait_loop_exit_amended :
    (∀ (s : DriverState) (steps : List WaitStep),
      s.bonding_fail = true ∨ s.bonded = true ∨ s.encrypted = true ∨
        s.connected = false →
      bondLoop s steps = .ok () s steps) ∧
    (∀ (s : DriverState) (steps : List WaitStep) (s' : DriverState)
        (rest : List WaitStep),
      bondLoop s steps = .ok () s' rest →
      s'.bonding_fail = true ∨ s'.bonded = true ∨ s'.encrypted = true ∨
        s'.connected = false) ∧
    (∀ (s : DriverState) (rest : List WaitStep),
      s.bonding_fail = true → s.connected = true →
      bondTail s rest = .err (.bgapi "encrypt_start failed") s) := by
  refine ⟨?_, ?_, ?_⟩
  · intro s steps hd
    refine bondLoop_exit_eq s steps ?_
    rintro ⟨h1, h2, h3, h4⟩
    rcases hd with h | h | h | h <;> simp_all
  · have key : ∀ (n : Nat) (s : DriverState) (steps : List WaitStep),
        steps.length ≤ n → ∀ (s' : DriverState) (rest : List WaitStep),
        bondLoop s steps = .ok () s' rest →
        s'.bonding_fail = true ∨ s'.bonded = true ∨ s'.encrypted = true ∨
          s'.connected = false := by
      intro n
      induction n with
      | zero =>
        intro s steps hlen s' rest heq
        have hsteps : steps = [] := List.length_eq_zero.mp (Nat.le_zero.mp hlen)
        subst hsteps
        by_cases hcond : s.bonding_fail = false ∧ s.connected = true ∧
            s.bonded = false ∧ s.encrypted = false
        · rw [bondLoop_exhausted_eq s [] hcond s rfl] at heq
          cases heq
        · rw [bondLoop_exit_eq s [] hcond] at heq
          cases heq
          exact bond_cond_neg s hcond
      | succ n ih =>
        intro s steps hlen s' rest heq
        by_cases hcond : s.bonding_fail = false ∧ s.connected = true ∧
            s.bonded = false ∧ s.encrypted = false
        · cases hp : process_packets_until bondKinds none .bgapiError s steps with
          | found s₁ rest₁ =>
            rw [bondLoop_found_eq s steps hcond s₁ rest₁ hp] at heq
            have hlt : rest₁.length < steps.length :=
              process_packets_until_found_length hp
            exact ih s₁ rest₁ (by omega) s' rest heq
          | timedOut s₁ e =>
            rw [bondLoop_timedOut_eq s steps hcond s₁ e hp] at heq
            cases heq
          | handlerError s₁ =>
            rw [bondLoop_handlerError_eq s steps hcond s₁ hp] at heq
            cases heq
          | exhausted s₁ =>
            rw [bondLoop_exhausted_eq s steps hcond s₁ hp] at heq
            cases heq
        · rw [bondLoop_exit_eq s steps hcond] at heq
          cases heq
          exact bond_cond_neg s hcond
    intro s steps s' rest heq
    exact key steps.length s steps (Nat.le_refl _) s' rest heq
  · intro s rest hbf hc
    simp [bondTail, hbf, hc]

/-- Closed instance of `bond_wait_loop_exit_amended`: a state with
`bonded` set exits the loop immediately and satisfies the exit
disjunction, and a connected state with `bonding_fail` set makes the
post-loop code raise `BGAPIError`. -/
theorem bond_wait_loop_exit_amended_witness :
    bondLoop { bonded := true } [] = .ok () { bonded := true } [] ∧
    (({ bonded := true } : DriverState).bonding_fail = true ∨
     ({ bonded := true } : DriverState).bonded = true ∨
     ({ bonded := true } : DriverState).encrypted = true ∨
     ({ bonded := true } : DriverState).connected = false) ∧
    bondTail { bonding_fail := true, connected := true } []
      = .err (.bgapi "encrypt_start failed")
          { bonding_fail := true, connected := true } :=
  ⟨bond_wait_loop_exit_amended.1 { bonded := true } [] (Or.inr (Or.inl rfl)),
   bond_wait_loop_exit_amended.2.1 { bonded := true } [] { bonded := true } []
     (bond_wait_loop_exit_amended.1 { bonded := true } [] (Or.inr (Or.inl rfl))),
   bond_wait_loop_exit_amended.2.2 { bonding_fail := true, connected := true }
     [] rfl rfl⟩

/-- C9: `subscribe` raises the explicitly-unimplemented error when
indications are requested; raises the missing-descriptor failure when the
characteristic has no client characteristic configuration descriptor; and
otherwise writes the notification bitmask `[0x01, 0x00]` to that
descriptor and registers the callback under the characteristic handle. -/
theorem subscribe_checks_and_registers :
    (∀ (ch : GattCharacteristic) (n : Bool) (cb : Option Nat)
        (s : DriverState) (steps : List WaitStep),
      subscribe ch n true cb s steps
        = .err (.notImplemented "Indication functionality not tested") s) ∧
    (∀ (ch : GattCharacteristic) (cb : Option Nat) (s : DriverState)
        (steps : List WaitStep),
      ch.descriptors.find? isCccd = none →
      subscribe ch true false cb s steps
        = .err (.bgapi
            "no client characteristic configuration descriptor found") s) ∧
    (∀ (ch : GattCharacteristic) (cccd : GattDescriptor) (cb : Nat)
        (s : DriverState) (hw hc hh : Nat) (extra : List WaitStep),
      ch.descriptors.find? isCccd = some cccd →
      s.connected = true →
      subscribe ch true false (some cb) s
          (⟨0, some (.rspAttclientAttributeWrite hw 0)⟩ ::
           ⟨0, some (.evtProcedureCompleted hc 0 hh)⟩ :: extra)
        = .ok ()
            { s with procedure_completed := false, response_return := 0,
                     event_return := 0,
                     callbacks := assocSet s.callbacks ch.handle cb,
                     sent := s.sent ++ [.attributeWriteCmd cccd.handle [1, 0]] }
            extra ∧
      assocGet (assocSet s.callbacks ch.handle cb) ch.handle = some cb) := by
  refine ⟨?_, ?_, ?_⟩
  · intro ch n cb s steps
    simp [subscribe]
  · intro ch cb s steps hfind
    simp [subscribe, hfind]
  · intro ch cccd cb s hw hc hh extra hfind hconn
    refine ⟨?_, assocGet_assocSet_self _ _ _⟩
    simp [subscribe, hfind, attribute_write, waitThen, process_packets_until,
      timeoutReached, handlePacket, Packet.kind, DriverState.send, hconn]

/-- Closed instance of `subscribe_checks_and_registers`: indications are
rejected as unimplemented; a characteristic without a configuration
descriptor is rejected; one with it gets the bitmask written and the
callback registered. -/
theorem subscribe_checks_and_registers_witness :
    subscribe { handle := 9, uuid := 20 } false true (some 77)
        { connected := true } []
      = .err (.notImplemented "Indication functionality not tested")
          { connected := true } ∧
    subscribe { handle := 9, uuid := 20 } true false (some 77)
        { connected := true } []
      = .err (.bgapi
          "no client characteristic configuration descriptor found")
          { connected := true } ∧
    subscribe
        { handle := 9, uuid := 20, descriptors :=
            [{ handle := 4, uuid := 5, descriptor_type :=
                 .clientCharacteristicConfiguration }] }
        true false (some 77) { connected := true }
        [⟨0, some (.rspAttclientAttributeWrite 0 0)⟩,
         ⟨0, some (.evtProcedureCompleted 0 0 2)⟩]
      = .ok ()
          { connected := true, callbacks := [(9, 77)],
            sent := [.attributeWriteCmd 4 [1, 0]] } [] :=
  ⟨subscribe_checks_and_registers.1 { handle := 9, uuid := 20 } false
      (some 77) { connected := true } [],
   subscribe_checks_and_registers.2.1 { handle := 9, uuid := 20 } (some 77)
      { connected := true } [] rfl,
   (subscribe_checks_and_registers.2.2
      { handle := 9, uuid := 20, descriptors :=
          [{ handle := 4, uuid := 5, descriptor_type :=
               .clientCharacteristicConfiguration }] }
      { handle := 4, uuid := 5, descriptor_type :=
          .clientCharacteristicConfiguration }
      77 { connected := true } 0 0 2 [] rfl rfl).1⟩

end Bgapi
